import Mathlib

/-!
Verification of the Conversation/Message CRUD services
(src/conversation.py and src/message.py).

Shallow embedding conventions:
* UUID values are modelled as strings, datetimes as naturals, floats as
  integers (no claim performs arithmetic on them; only equality matters).
* The relational store is a list of rows; a SQL statement becomes an
  explicit list transformation.  `UPDATE ... RETURNING` together with
  `fetch_one` returns the first updated row.
* A pydantic `Optional[T]` field is `Option T`.  A raw JSON field is
  three-valued (`missing` / `null` / a value) so that request validation
  and pydantic defaults can be modelled faithfully.
* A Python exception is `PyExc`: either a `fastapi.HTTPException`
  (status, detail) or any other exception carrying its `str(e)` text.
  The conversation handlers wrap their whole body in
  `try: ... except Exception as e: raise HTTPException(500, prefix + str(e))`;
  this is `tryWrap`.  `async with database.transaction()` rolls the store
  back when an exception escapes the block; this is `transaction`.
* `str(e)` of a `fastapi.HTTPException` is `"<status>: <detail>"`
  (starlette defines `__str__` exactly so); this is `excText`.
-/

namespace Realise

abbrev UUID := String
abbrev Time := Nat
abbrev Score := Int

/-- An HTTP error response: status code and detail message. -/
structure HError where
  status : Nat
  detail : String
deriving DecidableEq

def hError (status : Nat) (detail : String) : HError :=
  { status := status, detail := detail }

/-- A Python exception: a fastapi HTTPException or any other exception
(identified by its textual rendering). -/
inductive PyExc where
  | http : Nat → String → PyExc
  | other : String → PyExc
deriving DecidableEq

/-- Python `str(e)`: starlette renders an HTTPException as `status: detail`. -/
def excText : PyExc → String
  | PyExc.http st d => toString st ++ ": " ++ d
  | PyExc.other m => m

/-- The conversation handlers' `try/except Exception` block: any exception,
including an HTTPException raised inside the block, is replaced by an
HTTP 500 whose detail is the handler prefix followed by `str(e)`. -/
def tryWrap {σ α : Type} (msg : String) (body : σ → Except PyExc α × σ)
    (s : σ) : Except HError α × σ :=
  match body s with
  | (Except.error e, s2) => (Except.error (hError 500 (msg ++ excText e)), s2)
  | (Except.ok a, s2) => (Except.ok a, s2)

/-- `async with database.transaction()`: when an exception escapes the block
the store is rolled back to the state at entry. -/
def transaction {σ α : Type} (body : σ → Except PyExc α × σ) (s : σ) :
    Except PyExc α × σ :=
  match body s with
  | (Except.error e, _) => (Except.error e, s)
  | (Except.ok a, s2) => (Except.ok a, s2)

/-! Access gate: (`HTTPBearer` + `verify_token`, identical in both files) -/

/-- A request as seen by the security dependency: the bearer credential
extracted from the Authorization header, or `none` when the header is
absent or not a Bearer scheme. -/
structure BearerRequest where
  credentials : Option String
deriving DecidableEq

/-- `fastapi.security.HTTPBearer()` with the default `auto_error=True`:
a missing or non-Bearer Authorization header is rejected with
HTTP 403 `Not authenticated` before any user code runs. -/
def httpBearer (r : BearerRequest) : Except HError String :=
  match r.credentials with
  | none => Except.error (hError 403 ("Not authenticated"))
  | some c => Except.ok c

/-- `verify_token` from src/conversation.py line 34 and src/message.py
line 65 (byte-wise comparison against the process secret). -/
def verify_token (apiToken : String) (cred : String) : Except HError String :=
  if cred ≠ apiToken then Except.error (hError 401 ("Invalid token or unauthorized!"))
  else Except.ok cred

/-- The dependency chain guarding every endpoint: header extraction, then
token comparison; only on success is the handler invoked. -/
def withAuth {σ α : Type} (apiToken : String) (r : BearerRequest)
    (handler : σ → Except HError α × σ) (s : σ) : Except HError α × σ :=
  match httpBearer r with
  | Except.error e => (Except.error e, s)
  | Except.ok c =>
    match verify_token apiToken c with
    | Except.error e => (Except.error e, s)
    | Except.ok _ => handler s

/-- `hello_world` from src/message.py line 98. -/
def hello_world : String := "Hello, World!"

/-! Conversation entity (src/conversation.py) -/

/-- A row of the `conversation` table.  Nullable columns are `Option`. -/
structure ConversationRow where
  conversation_id : UUID
  company_id : Option UUID
  bot_version : Option String
  start_time : Option Time
  end_time : Option Time
  status : Option String
  sentiment_score : Option Score
  intent_label : Option String
  intent_confidence_score : Option Score
deriving DecidableEq

abbrev ConvStore := List ConversationRow

/-- The pydantic `ConversationCreate` model: every field optional,
defaulting to `None`.  It has no `conversation_id` field. -/
structure ConversationCreate where
  company_id : Option UUID := none
  bot_version : Option String := none
  start_time : Option Time := none
  end_time : Option Time := none
  status : Option String := none
  sentiment_score : Option Score := none
  intent_label : Option String := none
  intent_confidence_score : Option Score := none
deriving DecidableEq

/-- A raw create request body as the client sends it: the client may also
supply a `conversation_id` key, which pydantic ignores because
`ConversationCreate` declares no such field. -/
structure ConversationCreateRaw where
  conversation_id : Option UUID := none
  company_id : Option UUID := none
  bot_version : Option String := none
  start_time : Option Time := none
  end_time : Option Time := none
  status : Option String := none
  sentiment_score : Option Score := none
  intent_label : Option String := none
  intent_confidence_score : Option Score := none
deriving DecidableEq

/-- Parsing a raw body into the pydantic model: the undeclared
`conversation_id` key is dropped, every declared field is copied. -/
def parseConversationCreate (raw : ConversationCreateRaw) : ConversationCreate :=
  { company_id := raw.company_id
    bot_version := raw.bot_version
    start_time := raw.start_time
    end_time := raw.end_time
    status := raw.status
    sentiment_score := raw.sentiment_score
    intent_label := raw.intent_label
    intent_confidence_score := raw.intent_confidence_score }

/-- The row inserted by `create_conversation` (src/conversation.py lines
88-98): the payload dict with `conversation_id` set to a fresh uuid4 and
`start_time` set to `datetime.utcnow()`, overwriting any client value. -/
def conversationRowOf (p : ConversationCreate) (freshId : UUID) (now : Time) :
    ConversationRow :=
  { conversation_id := freshId
    company_id := p.company_id
    bot_version := p.bot_version
    start_time := some now
    end_time := p.end_time
    status := p.status
    sentiment_score := p.sentiment_score
    intent_label := p.intent_label
    intent_confidence_score := p.intent_confidence_score }

def conversationCreateBody (p : ConversationCreate) (freshId : UUID) (now : Time)
    (s : ConvStore) : Except PyExc UUID × ConvStore :=
  (Except.ok freshId, s ++ [conversationRowOf p freshId now])

/-- `create_conversation` (src/conversation.py lines 88-98): a single
INSERT inside a transaction, wrapped by the catch-all; the response body
is only the generated identifier. -/
def create_conversation (p : ConversationCreate) (freshId : UUID) (now : Time)
    (s : ConvStore) : Except HError UUID × ConvStore :=
  tryWrap ("Failed to create conversation: ")
    (transaction (conversationCreateBody p freshId now)) s

/-- `list_conversations` (src/conversation.py lines 100-107). -/
def list_conversations (s : ConvStore) : Except HError ConvStore × ConvStore :=
  tryWrap ("Failed to fetch conversations: ") (fun st => (Except.ok st, st)) s

def conversationReadBody (cid : UUID) (s : ConvStore) :
    Except PyExc ConversationRow × ConvStore :=
  match s.find? (fun r => decide (r.conversation_id = cid)) with
  | none => (Except.error (PyExc.http 404 ("Conversation not found")), s)
  | some r => (Except.ok r, s)

/-- `read_conversation` (src/conversation.py lines 142-151): the 404 raised
on a missing row is itself caught by the `except Exception` clause. -/
def read_conversation (cid : UUID) (s : ConvStore) :
    Except HError ConversationRow × ConvStore :=
  tryWrap ("Failed to fetch conversation: ") (conversationReadBody cid) s

def conversationDeleteBody (cid : UUID) (s : ConvStore) :
    Except PyExc Unit × ConvStore :=
  let deleted := s.countP (fun r => decide (r.conversation_id = cid))
  let remaining := s.filter (fun r => !(decide (r.conversation_id = cid)))
  if deleted = 0 then (Except.error (PyExc.http 404 ("Conversation not found")), remaining)
  else (Except.ok (), remaining)

/-- `delete_conversation` (src/conversation.py lines 109-122): DELETE in a
transaction; a zero rowcount raises 404, which the catch-all rewraps. -/
def delete_conversation (cid : UUID) (s : ConvStore) :
    Except HError Unit × ConvStore :=
  tryWrap ("Failed to delete conversation: ")
    (transaction (conversationDeleteBody cid)) s

/-- Whether the dict comprehension
`update_values = non-None items of update_data.dict()` is nonempty. -/
def hasConvUpdateValues (p : ConversationCreate) : Bool :=
  p.company_id.isSome || p.bot_version.isSome || p.start_time.isSome ||
  p.end_time.isSome || p.status.isSome || p.sentiment_score.isSome ||
  p.intent_label.isSome || p.intent_confidence_score.isSome

/-- A SET-clause entry: a present value overwrites the column, an absent
one leaves it untouched. -/
def setOpt {α : Type} (v : Option α) (old : Option α) : Option α :=
  match v with
  | some x => some x
  | none => old

/-- Applying the non-None fields of a `ConversationCreate` payload as the
SET clause of the UPDATE.  There is no `conversation_id` field, so the
primary key cannot appear in the SET clause. -/
def applyConvUpdate (p : ConversationCreate) (r : ConversationRow) :
    ConversationRow :=
  { conversation_id := r.conversation_id
    company_id := setOpt p.company_id r.company_id
    bot_version := setOpt p.bot_version r.bot_version
    start_time := setOpt p.start_time r.start_time
    end_time := setOpt p.end_time r.end_time
    status := setOpt p.status r.status
    sentiment_score := setOpt p.sentiment_score r.sentiment_score
    intent_label := setOpt p.intent_label r.intent_label
    intent_confidence_score := setOpt p.intent_confidence_score r.intent_confidence_score }

/-- The text of the exception raised when the UPDATE statement is built or
executed with an empty SET clause (SQL has no empty-SET syntax; the
statement layer rejects it before or at the store). -/
def emptyUpdateErrText : String := "No columns to update"

def conversationUpdateBody (cid : UUID) (p : ConversationCreate) (s : ConvStore) :
    Except PyExc ConversationRow × ConvStore :=
  if hasConvUpdateValues p then
    match s.find? (fun r => decide (r.conversation_id = cid)) with
    | none => (Except.error (PyExc.http 404 ("Conversation not found")), s)
    | some r0 =>
      (Except.ok (applyConvUpdate p r0),
       s.map (fun r => if r.conversation_id = cid then applyConvUpdate p r else r))
  else (Except.error (PyExc.other emptyUpdateErrText), s)

/-- `update_conversation` (src/conversation.py lines 124-140): UPDATE with
RETURNING in a transaction; `fetch_one` returning no row raises 404, which
the catch-all rewraps. -/
def update_conversation (cid : UUID) (p : ConversationCreate) (s : ConvStore) :
    Except HError ConversationRow × ConvStore :=
  tryWrap ("Failed to update conversation: ")
    (transaction (conversationUpdateBody cid p)) s

/-! Message entity (src/message.py) -/

/-- A row of the `message` table. -/
structure MessageRow where
  message_id : UUID
  conversation_id : UUID
  sender_type : Option String
  content : Option String
  timestamp : Option Time
  sentiment_score : Option Score
  intent_label : Option String
  intent_confidence_score : Option Score
deriving DecidableEq

abbrev MsgStore := List MessageRow

/-- A raw JSON field: absent from the body, explicit null, or a value. -/
inductive JsonField (α : Type) where
  | missing : JsonField α
  | null : JsonField α
  | val : α → JsonField α
deriving DecidableEq

/-- Pydantic parsing of one optional field with default `dflt`: an absent
key takes the default, an explicit null becomes `None`. -/
def parseField {α : Type} (dflt : Option α) : JsonField α → Option α
  | JsonField.missing => dflt
  | JsonField.null => none
  | JsonField.val v => some v

/-- The pydantic `MessageCreate` model (src/message.py lines 51-58) after
validation: `conversation_id` is required; the other fields are optional.
The `timestamp` default is `datetime.utcnow()` — evaluated once, when the
class body runs at module import, not per request. -/
structure MessageCreate where
  conversation_id : UUID
  sender_type : Option String := none
  content : Option String := none
  timestamp : Option Time := none
  sentiment_score : Option Score := none
  intent_label : Option String := none
  intent_confidence_score : Option Score := none
deriving DecidableEq

/-- A raw message request body as the client sends it. -/
structure MessageCreateRaw where
  conversation_id : JsonField UUID := JsonField.missing
  sender_type : JsonField String := JsonField.missing
  content : JsonField String := JsonField.missing
  timestamp : JsonField Time := JsonField.missing
  sentiment_score : JsonField Score := JsonField.missing
  intent_label : JsonField String := JsonField.missing
  intent_confidence_score : JsonField Score := JsonField.missing
deriving DecidableEq

/-- Pydantic validation of `MessageCreate`.  `moduleLoadTime` is the value
the expression `datetime.utcnow()` produced when src/message.py was
imported; it is the default used for every request whose body omits
`timestamp`.  A missing or null `conversation_id` is a 422 validation
error and the handler never runs. -/
def parseMessageCreate (moduleLoadTime : Time) (raw : MessageCreateRaw) :
    Except HError MessageCreate :=
  match raw.conversation_id with
  | JsonField.missing => Except.error (hError 422 ("field required: conversation_id"))
  | JsonField.null => Except.error (hError 422 ("none is not an allowed value: conversation_id"))
  | JsonField.val cid =>
    Except.ok
      { conversation_id := cid
        sender_type := parseField none raw.sender_type
        content := parseField none raw.content
        timestamp := parseField (some moduleLoadTime) raw.timestamp
        sentiment_score := parseField none raw.sentiment_score
        intent_label := parseField none raw.intent_label
        intent_confidence_score := parseField none raw.intent_confidence_score }

/-- The INSERT values dict built by `create_message` (src/message.py lines
79-88).  The outer `Option` is key presence in the dict, the inner one is
an explicit SQL NULL versus a value: `del new_message["sentiment_score"]`
removes the key entirely when the payload value is `None`. -/
structure MessageInsertValues where
  message_id : Option UUID
  conversation_id : Option UUID
  sender_type : Option (Option String)
  content : Option (Option String)
  timestamp : Option (Option Time)
  sentiment_score : Option (Option Score)
  intent_label : Option (Option String)
  intent_confidence_score : Option (Option Score)
deriving DecidableEq

def messageInsertValues (p : MessageCreate) (freshId : UUID) :
    MessageInsertValues :=
  { message_id := some freshId
    conversation_id := some p.conversation_id
    sender_type := some p.sender_type
    content := some p.content
    timestamp := some p.timestamp
    sentiment_score := Option.map some p.sentiment_score
    intent_label := some p.intent_label
    intent_confidence_score := some p.intent_confidence_score }

/-- The row the INSERT produces.  The `sentiment_score` column, absent from
the column set when the payload value was `None`, has no column default,
so the stored value is NULL in exactly that case. -/
def messageRowOf (p : MessageCreate) (freshId : UUID) : MessageRow :=
  { message_id := freshId
    conversation_id := p.conversation_id
    sender_type := p.sender_type
    content := p.content
    timestamp := p.timestamp
    sentiment_score := p.sentiment_score
    intent_label := p.intent_label
    intent_confidence_score := p.intent_confidence_score }

/-- `create_message` (src/message.py lines 79-88): single INSERT, no
transaction, no catch-all; the response is the constructed values dict
together with the generated identifier. -/
def create_message (p : MessageCreate) (freshId : UUID) (s : MsgStore) :
    Except HError MessageInsertValues × MsgStore :=
  (Except.ok (messageInsertValues p freshId), s ++ [messageRowOf p freshId])

/-- The create endpoint including request validation. -/
def messageCreateEP (moduleLoadTime : Time) (raw : MessageCreateRaw)
    (freshId : UUID) (s : MsgStore) : Except HError MessageInsertValues × MsgStore :=
  match parseMessageCreate moduleLoadTime raw with
  | Except.error e => (Except.error e, s)
  | Except.ok p => create_message p freshId s

/-- `get_messages_for_conversation` (src/message.py lines 90-96): a SELECT
filtered on `conversation_id`; an empty result set raises 404. -/
def get_messages_for_conversation (cid : UUID) (s : MsgStore) :
    Except HError MsgStore × MsgStore :=
  let msgs := s.filter (fun r => decide (r.conversation_id = cid))
  if msgs.isEmpty then
    (Except.error (hError 404 ("No messages found for this conversation")), s)
  else (Except.ok msgs, s)

/-- The UPDATE SET clause for a message, built as the non-None items of
`update_data.dict()`.  `update_data` is a `MessageCreate`, whose
`conversation_id` is required and therefore never `None`: it is always in
the SET clause.  `message_id` is not a field of the model, so the primary
key never is.  The clause is never empty. -/
structure MessageUpdateValues where
  conversation_id : Option UUID
  sender_type : Option String
  content : Option String
  timestamp : Option Time
  sentiment_score : Option Score
  intent_label : Option String
  intent_confidence_score : Option Score
deriving DecidableEq

def messageUpdateValues (p : MessageCreate) : MessageUpdateValues :=
  { conversation_id := some p.conversation_id
    sender_type := p.sender_type
    content := p.content
    timestamp := p.timestamp
    sentiment_score := p.sentiment_score
    intent_label := p.intent_label
    intent_confidence_score := p.intent_confidence_score }

def applyMessageUpdate (v : MessageUpdateValues) (r : MessageRow) : MessageRow :=
  { message_id := r.message_id
    conversation_id := v.conversation_id.getD r.conversation_id
    sender_type := setOpt v.sender_type r.sender_type
    content := setOpt v.content r.content
    timestamp := setOpt v.timestamp r.timestamp
    sentiment_score := setOpt v.sentiment_score r.sentiment_score
    intent_label := setOpt v.intent_label r.intent_label
    intent_confidence_score := setOpt v.intent_confidence_score r.intent_confidence_score }

/-- `update_message` (src/message.py lines 102-114): UPDATE with RETURNING,
no transaction, no catch-all; `fetch_one` returning no row surfaces as a
plain 404. -/
def update_message (mid : UUID) (p : MessageCreate) (s : MsgStore) :
    Except HError MessageRow × MsgStore :=
  let v := messageUpdateValues p
  match s.find? (fun r => decide (r.message_id = mid)) with
  | none => (Except.error (hError 404 ("Message not found")), s)
  | some r0 =>
    (Except.ok (applyMessageUpdate v r0),
     s.map (fun r => if r.message_id = mid then applyMessageUpdate v r else r))

/-- The update endpoint including request validation of the body. -/
def messageUpdateEP (moduleLoadTime : Time) (mid : UUID) (raw : MessageCreateRaw)
    (s : MsgStore) : Except HError MessageRow × MsgStore :=
  match parseMessageCreate moduleLoadTime raw with
  | Except.error e => (Except.error e, s)
  | Except.ok p => update_message mid p s

/-! Helper lemmas -/

theorem setOpt_idem {α : Type} (v o : Option α) :
    setOpt v (setOpt v o) = setOpt v o := by
  cases v <;> rfl

theorem getD_idem {α : Type} (v : Option α) (a : α) :
    v.getD (v.getD a) = v.getD a := by
  cases v <;> rfl

theorem applyConvUpdate_conversation_id (p : ConversationCreate) (r : ConversationRow) :
    (applyConvUpdate p r).conversation_id = r.conversation_id := rfl

theorem applyMessageUpdate_message_id (v : MessageUpdateValues) (r : MessageRow) :
    (applyMessageUpdate v r).message_id = r.message_id := rfl

theorem applyConvUpdate_idem (p : ConversationCreate) (r : ConversationRow) :
    applyConvUpdate p (applyConvUpdate p r) = applyConvUpdate p r := by
  simp [applyConvUpdate, setOpt_idem]

theorem applyMessageUpdate_idem (v : MessageUpdateValues) (r : MessageRow) :
    applyMessageUpdate v (applyMessageUpdate v r) = applyMessageUpdate v r := by
  simp [applyMessageUpdate, setOpt_idem, getD_idem]

/-- The per-row function applied by the conversation UPDATE statement. -/
def convUpdFun (cid : UUID) (p : ConversationCreate) (r : ConversationRow) :
    ConversationRow :=
  if r.conversation_id = cid then applyConvUpdate p r else r

/-- The per-row function applied by the message UPDATE statement. -/
def msgUpdFun (mid : UUID) (v : MessageUpdateValues) (r : MessageRow) :
    MessageRow :=
  if r.message_id = mid then applyMessageUpdate v r else r

theorem convUpdFun_conversation_id (cid : UUID) (p : ConversationCreate)
    (r : ConversationRow) :
    (convUpdFun cid p r).conversation_id = r.conversation_id := by
  unfold convUpdFun; split <;> rfl

theorem msgUpdFun_message_id (mid : UUID) (v : MessageUpdateValues)
    (r : MessageRow) :
    (msgUpdFun mid v r).message_id = r.message_id := by
  unfold msgUpdFun; split <;> rfl

theorem convUpdFun_idem (cid : UUID) (p : ConversationCreate) (r : ConversationRow) :
    convUpdFun cid p (convUpdFun cid p r) = convUpdFun cid p r := by
  unfold convUpdFun
  by_cases h : r.conversation_id = cid
  · simp [h, applyConvUpdate_conversation_id, applyConvUpdate_idem]
  · simp [h]

theorem msgUpdFun_idem (mid : UUID) (v : MessageUpdateValues) (r : MessageRow) :
    msgUpdFun mid v (msgUpdFun mid v r) = msgUpdFun mid v r := by
  unfold msgUpdFun
  by_cases h : r.message_id = mid
  · simp [h, applyMessageUpdate_message_id, applyMessageUpdate_idem]
  · simp [h]

theorem tryWrap_ok {σ α : Type} {m : String} {b : σ → Except PyExc α × σ}
    {s s2 : σ} {a : α} (h : b s = (Except.ok a, s2)) :
    tryWrap m b s = (Except.ok a, s2) := by
  unfold tryWrap; rw [h]

theorem tryWrap_err {σ α : Type} {m : String} {b : σ → Except PyExc α × σ}
    {s s2 : σ} {e : PyExc} (h : b s = (Except.error e, s2)) :
    tryWrap m b s = (Except.error (hError 500 (m ++ excText e)), s2) := by
  unfold tryWrap; rw [h]

theorem transaction_ok {σ α : Type} {b : σ → Except PyExc α × σ}
    {s s2 : σ} {a : α} (h : b s = (Except.ok a, s2)) :
    transaction b s = (Except.ok a, s2) := by
  unfold transaction; rw [h]

theorem transaction_err {σ α : Type} {b : σ → Except PyExc α × σ}
    {s s2 : σ} {e : PyExc} (h : b s = (Except.error e, s2)) :
    transaction b s = (Except.error e, s) := by
  unfold transaction; rw [h]

theorem conversationUpdateBody_some {cid : UUID} {p : ConversationCreate}
    {s : ConvStore} {r0 : ConversationRow}
    (hv : hasConvUpdateValues p = true)
    (hf : s.find? (fun r => decide (r.conversation_id = cid)) = some r0) :
    conversationUpdateBody cid p s =
      (Except.ok (applyConvUpdate p r0), s.map (convUpdFun cid p)) := by
  unfold conversationUpdateBody
  rw [hv]
  simp only [if_true, hf]
  rfl

theorem conversationUpdateBody_none {cid : UUID} {p : ConversationCreate}
    {s : ConvStore}
    (hv : hasConvUpdateValues p = true)
    (hf : s.find? (fun r => decide (r.conversation_id = cid)) = none) :
    conversationUpdateBody cid p s =
      (Except.error (PyExc.http 404 ("Conversation not found")), s) := by
  unfold conversationUpdateBody
  rw [hv]
  simp only [if_true, hf]

theorem conversationUpdateBody_empty {cid : UUID} {p : ConversationCreate}
    {s : ConvStore} (hv : hasConvUpdateValues p = false) :
    conversationUpdateBody cid p s =
      (Except.error (PyExc.other emptyUpdateErrText), s) := by
  unfold conversationUpdateBody
  rw [hv]
  simp only [Bool.false_eq_true, if_false]

theorem update_conversation_empty {cid : UUID} {p : ConversationCreate}
    {s : ConvStore} (hv : hasConvUpdateValues p = false) :
    update_conversation cid p s =
      (Except.error (hError 500
        ("Failed to update conversation: " ++ emptyUpdateErrText)), s) := by
  unfold update_conversation
  exact tryWrap_err (transaction_err (conversationUpdateBody_empty hv))

theorem update_conversation_none {cid : UUID} {p : ConversationCreate}
    {s : ConvStore} (hv : hasConvUpdateValues p = true)
    (hf : s.find? (fun r => decide (r.conversation_id = cid)) = none) :
    update_conversation cid p s =
      (Except.error (hError 500
        ("Failed to update conversation: " ++ excText (PyExc.http 404 ("Conversation not found")))), s) := by
  unfold update_conversation
  exact tryWrap_err (transaction_err (conversationUpdateBody_none hv hf))

theorem update_conversation_some {cid : UUID} {p : ConversationCreate}
    {s : ConvStore} {r0 : ConversationRow}
    (hv : hasConvUpdateValues p = true)
    (hf : s.find? (fun r => decide (r.conversation_id = cid)) = some r0) :
    update_conversation cid p s =
      (Except.ok (applyConvUpdate p r0), s.map (convUpdFun cid p)) := by
  unfold update_conversation
  exact tryWrap_ok (transaction_ok (conversationUpdateBody_some hv hf))

theorem update_message_some {mid : UUID} {p : MessageCreate} {s : MsgStore}
    {r0 : MessageRow}
    (hf : s.find? (fun r => decide (r.message_id = mid)) = some r0) :
    update_message mid p s =
      (Except.ok (applyMessageUpdate (messageUpdateValues p) r0),
       s.map (msgUpdFun mid (messageUpdateValues p))) := by
  unfold update_message
  simp only [hf]
  rfl

theorem update_message_none {mid : UUID} {p : MessageCreate} {s : MsgStore}
    (hf : s.find? (fun r => decide (r.message_id = mid)) = none) :
    update_message mid p s = (Except.error (hError 404 ("Message not found")), s) := by
  unfold update_message
  simp only [hf]

theorem tryWrap_state {σ α : Type} (m : String) (b : σ → Except PyExc α × σ)
    (s : σ) : (tryWrap m b s).2 = (b s).2 := by
  unfold tryWrap
  rcases hb : b s with ⟨e | a, s2⟩ <;> rfl

theorem conversationReadBody_state (cid : UUID) (s : ConvStore) :
    (conversationReadBody cid s).2 = s := by
  unfold conversationReadBody
  cases s.find? (fun r => decide (r.conversation_id = cid)) <;> rfl

theorem conversationDeleteBody_eq (cid : UUID) (s : ConvStore) :
    conversationDeleteBody cid s =
      if s.countP (fun r => decide (r.conversation_id = cid)) = 0 then
        (Except.error (PyExc.http 404 ("Conversation not found")),
         s.filter (fun r => !(decide (r.conversation_id = cid))))
      else (Except.ok (), s.filter (fun r => !(decide (r.conversation_id = cid)))) := rfl

theorem delete_conversation_state (cid : UUID) (s : ConvStore) :
    (delete_conversation cid s).2 = s ∨
      (delete_conversation cid s).2 =
        s.filter (fun r => !(decide (r.conversation_id = cid))) := by
  by_cases h : s.countP (fun r => decide (r.conversation_id = cid)) = 0
  · left
    have hb : conversationDeleteBody cid s =
        (Except.error (PyExc.http 404 ("Conversation not found")),
         s.filter (fun r => !(decide (r.conversation_id = cid)))) := by
      rw [conversationDeleteBody_eq, if_pos h]
    unfold delete_conversation
    rw [tryWrap_err (transaction_err hb)]
  · right
    have hb : conversationDeleteBody cid s =
        (Except.ok (), s.filter (fun r => !(decide (r.conversation_id = cid)))) := by
      rw [conversationDeleteBody_eq, if_neg h]
    unfold delete_conversation
    rw [tryWrap_ok (transaction_ok hb)]

/-! Claim theorems -/

/-- C1 (amended): the access gate guards every operation uniformly.  A
request whose Authorization header is absent fails with HTTP 403
`Not authenticated`; a present credential differing from the process
secret fails with HTTP 401 and the fixed message
`Invalid token or unauthorized!`; in both failure cases the result and
state are independent of the handler, so the handler is never invoked and
stored state is unchanged.  A credential equal to the secret hands the
request to the handler. -/
theorem C1_access_gate {σ α : Type} (tok : String) (r : BearerRequest)
    (handler : σ → Except HError α × σ) (s : σ) :
    (r.credentials = none →
      withAuth tok r handler s = (Except.error (hError 403 ("Not authenticated")), s)) ∧
    (∀ c, r.credentials = some c → c ≠ tok →
      withAuth tok r handler s =
        (Except.error (hError 401 ("Invalid token or unauthorized!")), s)) ∧
    (r.credentials = some tok → withAuth tok r handler s = handler s) := by
  refine ⟨fun h => ?_, fun c hc hne => ?_, fun h => ?_⟩
  · simp [withAuth, httpBearer, h]
  · simp [withAuth, httpBearer, hc, verify_token, hne]
  · simp [withAuth, httpBearer, h, verify_token]

/-- C1 witness: a mismatched credential is rejected with the fixed 401. -/
theorem C1_access_gate_witness :
    withAuth ("secret") { credentials := some ("wrong") }
        (read_conversation ("c1")) ([] : ConvStore) =
      (Except.error (hError 401 ("Invalid token or unauthorized!")), ([] : ConvStore)) :=
  (C1_access_gate ("secret") { credentials := some ("wrong") }
    (read_conversation ("c1")) []).2.1 ("wrong") rfl (by decide)

/-- C1 counterexample: the claim says an absent credential yields HTTP 401,
but `HTTPBearer()` rejects a request without an Authorization header with
HTTP 403 `Not authenticated` (status 403, not 401). -/
theorem C1_counterexample :
    (withAuth ("secret") { credentials := none }
        (read_conversation ("c1")) ([] : ConvStore)).1 =
      Except.error (hError 403 ("Not authenticated")) ∧ (403 : Nat) ≠ 401 :=
  ⟨rfl, by decide⟩

/-- C2: Read, Update and Delete on a nonexistent identifier.  The claim
(and the handlers' own intent) is HTTP 404; but every conversation handler
raises its 404 inside a `try` block whose `except Exception` clause
catches it and re-raises HTTP 500 with the stringified 404 embedded.
Only the message update, which has no catch-all, actually returns 404.
Evaluated here on an empty store. -/
theorem C2_notfound_swallowed :
    (delete_conversation ("c1") ([] : ConvStore)).1 =
      Except.error (hError 500 ("Failed to delete conversation: 404: Conversation not found")) ∧
    (read_conversation ("c1") ([] : ConvStore)).1 =
      Except.error (hError 500 ("Failed to fetch conversation: 404: Conversation not found")) ∧
    (update_conversation ("c1") { status := some ("terminated") } ([] : ConvStore)).1 =
      Except.error (hError 500 ("Failed to update conversation: 404: Conversation not found")) ∧
    (update_message ("m1") { conversation_id := ("A") } ([] : MsgStore)).1 =
      Except.error (hError 404 ("Message not found")) :=
  ⟨rfl, rfl, rfl, rfl⟩

/-- C3: whatever identifier or start time the client supplies, conversation
Create persists exactly one new record whose `conversation_id` is the
freshly generated value and whose `start_time` is the server time, responds
with only the generated identifier, ignores any client-supplied
`conversation_id`, and (when the generated value is fresh) preserves
uniqueness of stored identifiers. -/
theorem C3_create_conversation (raw : ConversationCreateRaw) (freshId : UUID)
    (now : Time) (s : ConvStore) :
    (create_conversation (parseConversationCreate raw) freshId now s =
      (Except.ok freshId,
       s ++ [conversationRowOf (parseConversationCreate raw) freshId now])) ∧
    ((conversationRowOf (parseConversationCreate raw) freshId now).conversation_id
      = freshId) ∧
    ((conversationRowOf (parseConversationCreate raw) freshId now).start_time
      = some now) ∧
    (∀ cid2 : Option UUID,
      create_conversation (parseConversationCreate { raw with conversation_id := cid2 })
          freshId now s =
        create_conversation (parseConversationCreate raw) freshId now s) ∧
    (freshId ∉ s.map ConversationRow.conversation_id →
      (s.map ConversationRow.conversation_id).Nodup →
      ((create_conversation (parseConversationCreate raw) freshId now s).2.map
          ConversationRow.conversation_id).Nodup) := by
  have hbody : ∀ q : ConversationCreate,
      create_conversation q freshId now s =
        (Except.ok freshId, s ++ [conversationRowOf q freshId now]) := by
    intro q
    exact tryWrap_ok (transaction_ok rfl)
  refine ⟨hbody _, rfl, rfl, fun cid2 => rfl, fun hnotin hnd => ?_⟩
  rw [hbody]
  simp only [List.map_append, List.map_cons, List.map_nil]
  rw [List.nodup_append]
  refine ⟨hnd, List.nodup_singleton _, ?_⟩
  rw [List.disjoint_singleton]
  simpa [conversationRowOf] using hnotin

/-- C3 witness: creating over an empty store with a client-supplied
identifier and start time keeps the stored identifiers unique. -/
theorem C3_create_conversation_witness :
    ((create_conversation
        (parseConversationCreate
          { conversation_id := some ("client-id"), start_time := some 3 })
        ("fresh-id") 7 ([] : ConvStore)).2.map
      ConversationRow.conversation_id).Nodup :=
  (C3_create_conversation
      { conversation_id := some ("client-id"), start_time := some 3 }
      ("fresh-id") 7 []).2.2.2.2 (by simp) (by simp)

/-- C4 counterexample: a stored message under conversation `A`, updated
with a payload whose (required) `conversation_id` is `B`, ends up stored
under conversation `B`: message Update does reassign the message's
conversation reference. -/
theorem C4_counterexample :
    ((update_message ("m1") { conversation_id := ("B") }
        [{ message_id := ("m1"), conversation_id := ("A"), sender_type := none,
           content := none, timestamp := some 1, sentiment_score := none,
           intent_label := none, intent_confidence_score := none }]).2.map
        MessageRow.conversation_id = [("B")]) ∧
    (("B") : String) ≠ ("A") :=
  ⟨rfl, by decide⟩

/-- C4 (amended): conversation Update can never touch `conversation_id`
(the payload model has no such field) and message Update can never touch
`message_id`; but message Update always writes the payload's required
`conversation_id` into the SET clause, so the updated row's
`conversation_id` becomes the payload's value, which may differ from the
stored one. -/
theorem C4_keys_amended (p : ConversationCreate) (r : ConversationRow)
    (v : MessageUpdateValues) (m : MessageRow) (q : MessageCreate)
    (cid mid : UUID) (s : ConvStore) (t : MsgStore) :
    ((applyConvUpdate p r).conversation_id = r.conversation_id) ∧
    ((applyMessageUpdate v m).message_id = m.message_id) ∧
    ((applyMessageUpdate (messageUpdateValues q) m).conversation_id =
      q.conversation_id) ∧
    ((update_conversation cid p s).2.map ConversationRow.conversation_id =
      s.map ConversationRow.conversation_id) ∧
    ((update_message mid q t).2.map MessageRow.message_id =
      t.map MessageRow.message_id) := by
  refine ⟨rfl, rfl, rfl, ?_, ?_⟩
  · cases hv : hasConvUpdateValues p with
    | false => rw [update_conversation_empty hv]
    | true =>
      cases hf : s.find? (fun x => decide (x.conversation_id = cid)) with
      | none => rw [update_conversation_none hv hf]
      | some r0 =>
        rw [update_conversation_some hv hf]
        simp [List.map_map, Function.comp, convUpdFun_conversation_id]
  · cases hf : t.find? (fun x => decide (x.message_id = mid)) with
    | none => rw [update_message_none hf]
    | some r0 =>
      rw [update_message_some hf]
      simp [List.map_map, Function.comp, msgUpdFun_message_id]

/-- C5 counterexample: the message store holds a message `m1`, yet Update
on `m1` with an empty payload (no fields supplied) does not return the
record: the body fails pydantic validation because `conversation_id` is a
required field of the update model. -/
theorem C5_counterexample :
    (messageUpdateEP 0 ("m1") {}
        [{ message_id := ("m1"), conversation_id := ("A"), sender_type := none,
           content := none, timestamp := some 1, sentiment_score := none,
           intent_label := none, intent_confidence_score := none }]).1 =
      Except.error (hError 422 ("field required: conversation_id")) := rfl

/-- C5 (amended): an Update with an empty partial payload never modifies
any stored field of any record, but it does not return the record either:
for Conversation the empty SET clause makes the store call fail and the
catch-all surfaces HTTP 500 with the transaction rolled back; for Message
the empty payload is rejected at validation (HTTP 422) because
`conversation_id` is required, and the handler never runs. -/
theorem C5_empty_update (cid mid : UUID) (moduleLoadTime : Time)
    (s : ConvStore) (t : MsgStore) :
    ((update_conversation cid ({} : ConversationCreate) s).2 = s) ∧
    ((update_conversation cid ({} : ConversationCreate) s).1 =
      Except.error (hError 500 ("Failed to update conversation: " ++ emptyUpdateErrText))) ∧
    ((messageUpdateEP moduleLoadTime mid {} t).2 = t) ∧
    ((messageUpdateEP moduleLoadTime mid {} t).1 =
      Except.error (hError 422 ("field required: conversation_id"))) := by
  have h : update_conversation cid ({} : ConversationCreate) s =
      (Except.error (hError 500 ("Failed to update conversation: " ++ emptyUpdateErrText)), s) :=
    update_conversation_empty rfl
  exact ⟨by rw [h], by rw [h], rfl, rfl⟩

/-- C6: when the create payload's `sentiment_score` is `None` the key is
deleted from the INSERT values, so the persisted column set omits
`sentiment_score` entirely; the values dict never carries an explicit null
for it; when a value is supplied it is persisted as given. -/
theorem C6_sentiment_score_omitted (p : MessageCreate) (freshId : UUID)
    (t : MsgStore) :
    (p.sentiment_score = none →
      (messageInsertValues p freshId).sentiment_score = none) ∧
    (∀ v, p.sentiment_score = some v →
      (messageInsertValues p freshId).sentiment_score = some (some v)) ∧
    ((messageInsertValues p freshId).sentiment_score ≠ some none) ∧
    ((create_message p freshId t).2 = t ++ [messageRowOf p freshId]) ∧
    ((messageRowOf p freshId).sentiment_score = p.sentiment_score) := by
  refine ⟨fun h => ?_, fun v h => ?_, ?_, rfl, rfl⟩
  · simp [messageInsertValues, h]
  · simp [messageInsertValues, h]
  · cases h : p.sentiment_score <;> simp [messageInsertValues, h]

/-- C6 witness: a payload without `sentiment_score` produces INSERT values
in which the `sentiment_score` key is absent. -/
theorem C6_sentiment_score_omitted_witness :
    (messageInsertValues { conversation_id := ("A") } ("m1")).sentiment_score = none :=
  (C6_sentiment_score_omitted { conversation_id := ("A") } ("m1") []).1 rfl

/-- C7: List-by-conversation fails with the 404 `No messages found for this
conversation` when no stored message has the given `conversation_id`, and
otherwise returns exactly the messages whose `conversation_id` equals it. -/
theorem C7_list_by_conversation (cid : UUID) (t : MsgStore) :
    ((∀ m ∈ t, m.conversation_id ≠ cid) →
      get_messages_for_conversation cid t =
        (Except.error (hError 404 ("No messages found for this conversation")), t)) ∧
    (∀ l, (get_messages_for_conversation cid t).1 = Except.ok l →
      ∀ m : MessageRow, m ∈ l ↔ m ∈ t ∧ m.conversation_id = cid) := by
  constructor
  · intro h
    have hf : t.filter (fun r => decide (r.conversation_id = cid)) = [] := by
      rw [List.filter_eq_nil_iff]
      intro a ha
      simp [h a ha]
    simp only [get_messages_for_conversation, hf]
    rfl
  · intro l hl m
    by_cases he : (t.filter (fun r => decide (r.conversation_id = cid))).isEmpty
    · simp only [get_messages_for_conversation, he, if_true] at hl
      exact Except.noConfusion hl
    · simp only [get_messages_for_conversation, he, if_false] at hl
      have hlf : l = t.filter (fun r => decide (r.conversation_id = cid)) :=
        (Except.ok.injEq _ _).mp hl.symm
      subst hlf
      simp [List.mem_filter]

/-- C7 witness: the empty store has no message for conversation `A`, so the
listing fails with 404 and an unchanged store. -/
theorem C7_list_by_conversation_witness :
    get_messages_for_conversation ("A") ([] : MsgStore) =
      (Except.error (hError 404 ("No messages found for this conversation")),
       ([] : MsgStore)) :=
  (C7_list_by_conversation ("A") []).1 (by simp)

/-- C8: when the request body omits `timestamp`, the persisted message's
`timestamp` is `moduleLoadTime` — the single `datetime.utcnow()` value
computed when the pydantic class body ran at import — for every request,
regardless of when the create operation runs (the handler never consults
the clock).  The claim says it should be the creation time of the
message. -/
theorem C8_default_timestamp (moduleLoadTime : Time) (cid : UUID)
    (raw : MessageCreateRaw) (freshId : UUID) (t : MsgStore)
    (h1 : raw.conversation_id = JsonField.val cid)
    (h2 : raw.timestamp = JsonField.missing) :
    (messageCreateEP moduleLoadTime raw freshId t).2.map MessageRow.timestamp =
      t.map MessageRow.timestamp ++ [some moduleLoadTime] := by
  simp [messageCreateEP, parseMessageCreate, h1, h2, create_message,
    messageRowOf, parseField]

/-- C8 witness: with an import-time clock value of 5, a body omitting
`timestamp` is stored with timestamp 5. -/
theorem C8_default_timestamp_witness :
    (messageCreateEP 5 { conversation_id := JsonField.val ("A") } ("m1")
        ([] : MsgStore)).2.map MessageRow.timestamp = [some 5] :=
  C8_default_timestamp 5 ("A") { conversation_id := JsonField.val ("A") }
    ("m1") [] rfl rfl

/-- C9: applying the same partial Update payload twice in succession leaves
the same final stored state as applying it once, for both entities. -/
theorem C9_update_idempotent (cid mid : UUID) (p : ConversationCreate)
    (q : MessageCreate) (s : ConvStore) (t : MsgStore) :
    ((update_conversation cid p (update_conversation cid p s).2).2 =
      (update_conversation cid p s).2) ∧
    ((update_message mid q (update_message mid q t).2).2 =
      (update_message mid q t).2) := by
  constructor
  · cases hv : hasConvUpdateValues p with
    | false =>
      have hs1 : (update_conversation cid p s).2 = s := by
        rw [update_conversation_empty hv]
      rw [hs1]
      exact hs1
    | true =>
      cases hf : s.find? (fun r => decide (r.conversation_id = cid)) with
      | none =>
        have hs1 : (update_conversation cid p s).2 = s := by
          rw [update_conversation_none hv hf]
        rw [hs1]
        exact hs1
      | some r0 =>
        have hs1 : (update_conversation cid p s).2 = s.map (convUpdFun cid p) := by
          rw [update_conversation_some hv hf]
        have hcomp : ((fun r : ConversationRow => decide (r.conversation_id = cid)) ∘
            convUpdFun cid p) =
            (fun r : ConversationRow => decide (r.conversation_id = cid)) := by
          funext x
          simp [Function.comp, convUpdFun_conversation_id]
        have hf2 : (s.map (convUpdFun cid p)).find?
            (fun r => decide (r.conversation_id = cid)) =
            some (convUpdFun cid p r0) := by
          rw [List.find?_map, hcomp, hf]
          rfl
        have hs2 : (update_conversation cid p (s.map (convUpdFun cid p))).2 =
            (s.map (convUpdFun cid p)).map (convUpdFun cid p) := by
          rw [update_conversation_some hv hf2]
        rw [hs1, hs2, List.map_map]
        have hff : convUpdFun cid p ∘ convUpdFun cid p = convUpdFun cid p :=
          funext fun r => convUpdFun_idem cid p r
        rw [hff]
  · cases hf : t.find? (fun r => decide (r.message_id = mid)) with
    | none =>
      have hs1 : (update_message mid q t).2 = t := by
        rw [update_message_none hf]
      rw [hs1]
      exact hs1
    | some r0 =>
      have hs1 : (update_message mid q t).2 =
          t.map (msgUpdFun mid (messageUpdateValues q)) := by
        rw [update_message_some hf]
      have hcomp : ((fun r : MessageRow => decide (r.message_id = mid)) ∘
          msgUpdFun mid (messageUpdateValues q)) =
          (fun r : MessageRow => decide (r.message_id = mid)) := by
        funext x
        simp [Function.comp, msgUpdFun_message_id]
      have hf2 : (t.map (msgUpdFun mid (messageUpdateValues q))).find?
          (fun r => decide (r.message_id = mid)) =
          some (msgUpdFun mid (messageUpdateValues q) r0) := by
        rw [List.find?_map, hcomp, hf]
        rfl
      have hs2 : (update_message mid q (t.map (msgUpdFun mid (messageUpdateValues q)))).2 =
          (t.map (msgUpdFun mid (messageUpdateValues q))).map
            (msgUpdFun mid (messageUpdateValues q)) := by
        rw [update_message_some hf2]
      rw [hs1, hs2, List.map_map]
      have hff : msgUpdFun mid (messageUpdateValues q) ∘
          msgUpdFun mid (messageUpdateValues q) =
          msgUpdFun mid (messageUpdateValues q) :=
        funext fun r => msgUpdFun_idem mid (messageUpdateValues q) r
      rw [hff]

/-- C10: Read and List never change stored state; Delete and Update touch
at most the row whose primary key equals the supplied identifier: every
other row survives unchanged (membership is preserved in both directions
for rows whose key differs from the identifier). -/
theorem C10_row_isolation (cid mid : UUID) (p : ConversationCreate)
    (q : MessageCreate) (s : ConvStore) (t : MsgStore) :
    ((read_conversation cid s).2 = s) ∧
    ((list_conversations s).2 = s) ∧
    ((get_messages_for_conversation cid t).2 = t) ∧
    (∀ r ∈ s, r.conversation_id ≠ cid → r ∈ (delete_conversation cid s).2) ∧
    (∀ r ∈ (delete_conversation cid s).2, r ∈ s) ∧
    (∀ r ∈ s, r.conversation_id ≠ cid → r ∈ (update_conversation cid p s).2) ∧
    (∀ r ∈ (update_conversation cid p s).2, r.conversation_id ≠ cid → r ∈ s) ∧
    (∀ r ∈ t, r.message_id ≠ mid → r ∈ (update_message mid q t).2) ∧
    (∀ r ∈ (update_message mid q t).2, r.message_id ≠ mid → r ∈ t) := by
  refine ⟨?_, ?_, ?_, ?_, ?_, ?_, ?_, ?_, ?_⟩
  · unfold read_conversation
    rw [tryWrap_state]
    exact conversationReadBody_state cid s
  · unfold list_conversations
    rw [tryWrap_state]
  · by_cases he : (t.filter (fun r => decide (r.conversation_id = cid))).isEmpty
    · simp only [get_messages_for_conversation, he, if_true]
    · simp only [get_messages_for_conversation, he, if_false]
      rfl
  · intro r hr hne
    rcases delete_conversation_state cid s with h | h <;> rw [h]
    · exact hr
    · simp [List.mem_filter, hr, hne]
  · intro r hr
    rcases delete_conversation_state cid s with h | h <;> rw [h] at hr
    · exact hr
    · exact List.mem_of_mem_filter hr
  · intro r hr hne
    cases hv : hasConvUpdateValues p with
    | false =>
      rw [update_conversation_empty hv]
      exact hr
    | true =>
      cases hf : s.find? (fun x => decide (x.conversation_id = cid)) with
      | none =>
        rw [update_conversation_none hv hf]
        exact hr
      | some r0 =>
        rw [update_conversation_some hv hf]
        refine List.mem_map.mpr ⟨r, hr, ?_⟩
        simp [convUpdFun, hne]
  · intro r hrm hne
    cases hv : hasConvUpdateValues p with
    | false =>
      rw [update_conversation_empty hv] at hrm
      exact hrm
    | true =>
      cases hf : s.find? (fun x => decide (x.conversation_id = cid)) with
      | none =>
        rw [update_conversation_none hv hf] at hrm
        exact hrm
      | some r0 =>
        rw [update_conversation_some hv hf] at hrm
        obtain ⟨x, hx, hfx⟩ := List.mem_map.mp hrm
        by_cases hxc : x.conversation_id = cid
        · exfalso
          apply hne
          rw [← hfx, convUpdFun_conversation_id]
          exact hxc
        · have hid : convUpdFun cid p x = x := by
            simp [convUpdFun, hxc]
          rw [← hfx, hid]
          exact hx
  · intro r hr hne
    cases hf : t.find? (fun x => decide (x.message_id = mid)) with
    | none =>
      rw [update_message_none hf]
      exact hr
    | some r0 =>
      rw [update_message_some hf]
      refine List.mem_map.mpr ⟨r, hr, ?_⟩
      simp [msgUpdFun, hne]
  · intro r hrm hne
    cases hf : t.find? (fun x => decide (x.message_id = mid)) with
    | none =>
      rw [update_message_none hf] at hrm
      exact hrm
    | some r0 =>
      rw [update_message_some hf] at hrm
      obtain ⟨x, hx, hfx⟩ := List.mem_map.mp hrm
      by_cases hxc : x.message_id = mid
      · exfalso
        apply hne
        rw [← hfx, msgUpdFun_message_id]
        exact hxc
      · have hid : msgUpdFun mid (messageUpdateValues q) x = x := by
          simp [msgUpdFun, hxc]
        rw [← hfx, hid]
        exact hx

/-- C10 witness: deleting conversation `c` leaves the unrelated stored
conversation `d` in place. -/
theorem C10_row_isolation_witness :
    ({ conversation_id := ("d"), company_id := none, bot_version := none,
       start_time := none, end_time := none, status := none,
       sentiment_score := none, intent_label := none,
       intent_confidence_score := none } : ConversationRow) ∈
      (delete_conversation ("c")
        [{ conversation_id := ("d"), company_id := none, bot_version := none,
           start_time := none, end_time := none, status := none,
           sentiment_score := none, intent_label := none,
           intent_confidence_score := none }]).2 :=
  (C10_row_isolation ("c") ("m") {} { conversation_id := ("x") }
      [{ conversation_id := ("d"), company_id := none, bot_version := none,
         start_time := none, end_time := none, status := none,
         sentiment_score := none, intent_label := none,
         intent_confidence_score := none }] []).2.2.2.1
    { conversation_id := ("d"), company_id := none, bot_version := none,
      start_time := none, end_time := none, status := none,
      sentiment_score := none, intent_label := none,
      intent_confidence_score := none }
    (by simp) (by decide)

end Realise
